import Mathlib

/-
  Verification of the document-state-tracking core of vscode-gitlens.

  Shallow embedding of:
  - TrackedDocument (src/unnamed/part_002, i.e. trackedDocument.ts): the
    per-document state machine with its async initialize/update sequence,
    reset, dispose and setBlameFailure operations.  The async functions are
    modelled as small-step machines whose suspension points are the `await`
    expressions of the source, so that resets/disposals and stale query
    results can be interleaved exactly as the single-threaded cooperative
    scheduler of the host allows.
  - DocumentStateTracker (src/src/documentStateTracker.ts): the store keyed
    by document identity and by normalized path, its add/get operations,
    the text-document-changed routing and the dirty-state publish policy
    (setImmediate for becoming dirty, 250ms debounce for becoming clean).
  - GitContextTracker (src/unnamed/part_000): updateContext with its
    try/catch error handling and updateRemotes with its remote-flag
    aggregation loop.

  Query results of the external git collaborator (isTracked, getRepository,
  hasRemote, GitUri.fromUri) are supplied as explicit parameters, failures
  as `Except` values.  Host context flags and the two notification streams
  are modelled as an output list.
-/

namespace GitLens

/-! ## Host data model -/

/-- A host text document; `id` models object identity of the `TextDocument`
handle, the other fields are the pieces of the document the tracker reads
(`uri.scheme`, `uri.fsPath`, `isDirty`). -/
structure TextDocument where
  id : Nat
  uriScheme : String
  uriFsPath : String
  isDirty : Bool
deriving DecidableEq, Repr

/-- A host text editor wrapping a document; `id` models object identity,
which is what `window.activeTextEditor !== editor` compares. -/
structure TextEditor where
  id : Nat
  document : TextDocument
deriving DecidableEq, Repr

/-- The resolved GitUri; only the `sha` field (revision pin) is read by the
tracking code.  The source tests `!!this._uri.sha`; we model sha presence
(an empty-string sha, falsy in JS, does not occur for resolved revisions). -/
structure GitUri where
  sha : Option String
deriving DecidableEq, Repr

/-- A repository handle.  `id` models object identity (the source compares
repositories with `===`); `hasRemote` and `hasRemotes` are the (pure,
pre-supplied) results of the two async query methods of the external
Repository collaborator that this subsystem calls. -/
structure Repository where
  id : Nat
  hasRemote : Bool
  hasRemotes : Bool
deriving DecidableEq, Repr

/-- The named boolean context flags mirrored into the host via
`setCommandContext`. -/
inductive CtxFlag
  | activeIsRevision
  | activeFileIsTracked
  | activeIsBlameable
  | activeHasRemote
  | hasRemotes
  | enabled
deriving DecidableEq, Repr

/-- Reasons carried by GitContextTracker blameability events. -/
inductive BlameabilityChangeReason
  | blameFailed
  | documentChanged
  | editorChanged
  | repoChanged
deriving DecidableEq, Repr

/-- Externally observable outputs: context-flag writes and the notification
streams.  `setCtx` carries an optional Bool because
`GitContextTracker.updateBlameability` can pass an undefined value through
to `setCommandContext`. -/
inductive Out
  | setCtx (flag : CtxFlag) (value : Option Bool)
  | blameEvent (docId : Nat) (blameable : Bool)
  | dirtyEvent (docId : Nat) (dirty : Bool)
  | blameabilityEvent (editorId : Option Nat) (blameable : Option Bool)
      (dirty : Bool) (reason : BlameabilityChangeReason)
  | lineDirtyDebounce
deriving DecidableEq, Repr

/-- Recognizer for blame-state-changed notifications among outputs. -/
def Out.isBlameEvent : Out → Bool
  | Out.blameEvent _ _ => true
  | _ => false

/-! ## TrackedDocument (src/unnamed/part_002, trackedDocument.ts) -/

/-- The reason strings accepted by `TrackedDocument.reset`. -/
inductive ResetReason
  | config
  | dispose
  | document
  | repository
deriving DecidableEq, Repr

/-- State of a `TrackedDocument<T>`.  `state` is the cached blame state
(`T | undefined`, content irrelevant here), `instId` models object identity
of the TrackedDocument instance itself, `repoSubscription` models the
`_disposable` repository-change subscription being live. -/
structure TDoc where
  document : TextDocument
  key : String
  dirty : Bool
  instId : Nat
  state : Option Unit
  disposed : Bool
  blameFailed : Bool
  isTracked : Bool
  hasRemotes : Bool
  shouldTriggerOnNextChange : Bool
  uri : Option GitUri
  repo : Option Repository
  repoSubscription : Bool
deriving DecidableEq, Repr

/-- Field values a freshly constructed `TrackedDocument(document, key,
dirty, ...)` starts with (the constructor also kicks off the async
`initialize`, modelled separately by `TDoc.initializeRun`). -/
def mkTDoc (document : TextDocument) (key : String) (dirty : Bool) (instId : Nat) : TDoc :=
  { document := document, key := key, dirty := dirty, instId := instId,
    state := none, disposed := false, blameFailed := false,
    isTracked := false, hasRemotes := false, shouldTriggerOnNextChange := false,
    uri := none, repo := none, repoSubscription := false }

/-- Getter `isBlameable`: `this._blameFailed ? false : this._isTracked`. -/
def TDoc.isBlameable (d : TDoc) : Bool :=
  if d.blameFailed then false else d.isTracked

/-- Getter `isRevision`: `this._uri !== undefined ? !!this._uri.sha : false`. -/
def TDoc.isRevision (d : TDoc) : Bool :=
  match d.uri with
  | some u => u.sha.isSome
  | none => false

/-- `reset(reason)`: clears `_blameFailed`, then clears the cached `state`
unless it is already undefined (the reason is only logged). -/
def TDoc.reset (d : TDoc) (_reason : ResetReason) : TDoc :=
  let d := { d with blameFailed := false }
  if d.state = none then d else { d with state := none }

/-- `dispose()`: sets `_disposed`, runs `reset('dispose')`, releases the
repository-change subscription.  Fires nothing. -/
def TDoc.dispose (d : TDoc) : TDoc :=
  let d := { d with disposed := true }
  let d := d.reset ResetReason.dispose
  { d with repoSubscription := false }

/-- `setBlameFailure()` up to and including the decision to trigger a
forced update: sets `_blameFailed`; returns the updated document and
whether `update({forceBlameChange: true})` is invoked (`wasBlameable &&
this.isActive()`).  Whether the document is active is read from the host
and passed in. -/
def TDoc.setBlameFailure (d : TDoc) (isActive : Bool) : TDoc × Bool :=
  let wasBlameable := d.isBlameable
  let d := { d with blameFailed := true }
  (d, wasBlameable && isActive)

def TDoc.setTriggerOnNextChange (d : TDoc) : TDoc :=
  { d with shouldTriggerOnNextChange := true }

def TDoc.resetTriggerOnNextChange (d : TDoc) : TDoc :=
  { d with shouldTriggerOnNextChange := false }

/-- Options object of `TrackedDocument.update`. -/
structure UpdOptions where
  forceBlameChange : Bool := false
  initializing : Bool := false
deriving DecidableEq, Repr

/-- Suspension points of the async `update` method: after issuing
`Container.git.isTracked`, after `await this._repo`, and after
`repo.hasRemote()`.  Each continuation carries the values `update`
captured before suspending. -/
inductive UpdPhase
  | awaitTracked (isActive : Bool) (wasBlameable : Option Bool) (options : UpdOptions)
  | awaitRepo (isActive : Bool)
  | awaitHasRemote (isActive : Bool) (repo : Repository)
  | done
deriving DecidableEq, Repr

/-- Synchronous prefix of `update(options)`: the disposed/uri guard (which
zeroes `_hasRemotes` and `_isTracked` and returns), then capture of
`isActive` (read from `window.activeTextEditor`, passed in) and
`wasBlameable` (undefined when `forceBlameChange`), then suspension at
`await Container.git.isTracked(this._uri)`. -/
def TDoc.updateStart (d : TDoc) (options : UpdOptions) (isActive : Bool) : TDoc × UpdPhase :=
  if d.disposed || d.uri = none then
    ({ d with hasRemotes := false, isTracked := false }, UpdPhase.done)
  else
    (d, UpdPhase.awaitTracked isActive
          (if options.forceBlameChange then none else some d.isBlameable) options)

/-- Continuation of `update` after `isTracked` resolves: assigns
`_isTracked`; if active, mirrors the revision/tracked/blameable context
flags and fires the blame-state-changed event when not initializing and
the blameable value differs from the captured one; then either suspends at
`await this._repo` (when tracked) or finishes with `_hasRemotes = false`. -/
def TDoc.updateResumeTracked (d : TDoc) (isActive : Bool) (wasBlameable : Option Bool)
    (options : UpdOptions) (isTrackedResult : Bool) : TDoc × List Out × UpdPhase :=
  let d := { d with isTracked := isTrackedResult }
  let outs :=
    if isActive then
      let blameable := d.isBlameable
      [Out.setCtx CtxFlag.activeIsRevision (some d.isRevision),
       Out.setCtx CtxFlag.activeFileIsTracked (some d.isTracked),
       Out.setCtx CtxFlag.activeIsBlameable (some blameable)]
      ++ (if !options.initializing && wasBlameable ≠ some blameable then
            [Out.blameEvent d.document.id blameable]
          else [])
    else []
  if d.isTracked then
    (d, outs, UpdPhase.awaitRepo isActive)
  else
    let d := { d with hasRemotes := false }
    (d, outs ++ (if isActive then [Out.setCtx CtxFlag.activeHasRemote (some d.hasRemotes)] else []),
     UpdPhase.done)

/-- Continuation of `update` after `await this._repo` resolves (it reads
the stored repository reference): either suspends at `repo.hasRemote()` or
finishes with `_hasRemotes = false`. -/
def TDoc.updateResumeRepo (d : TDoc) (isActive : Bool) : TDoc × List Out × UpdPhase :=
  match d.repo with
  | some repo => (d, [], UpdPhase.awaitHasRemote isActive repo)
  | none =>
    let d := { d with hasRemotes := false }
    (d, if isActive then [Out.setCtx CtxFlag.activeHasRemote (some d.hasRemotes)] else [],
     UpdPhase.done)

/-- Final continuation of `update` after `repo.hasRemote()` resolves:
assigns `_hasRemotes` and, if active, mirrors the active-has-remote flag. -/
def TDoc.updateResumeHasRemote (d : TDoc) (isActive : Bool) (hasRemoteResult : Bool) :
    TDoc × List Out × UpdPhase :=
  let d := { d with hasRemotes := hasRemoteResult }
  (d, if isActive then [Out.setCtx CtxFlag.activeHasRemote (some d.hasRemotes)] else [],
   UpdPhase.done)

/-- One resumption step of a suspended `update`, with the pending query
results supplied. -/
def TDoc.updateStep (d : TDoc) (ph : UpdPhase) (isTrackedResult hasRemoteResult : Bool) :
    TDoc × List Out × UpdPhase :=
  match ph with
  | UpdPhase.awaitTracked isActive wasBlameable options =>
      d.updateResumeTracked isActive wasBlameable options isTrackedResult
  | UpdPhase.awaitRepo isActive => d.updateResumeRepo isActive
  | UpdPhase.awaitHasRemote isActive _ => d.updateResumeHasRemote isActive hasRemoteResult
  | UpdPhase.done => (d, [], UpdPhase.done)

/-- Runs a suspended `update` to completion without interference (fuel
bounds the at most three remaining suspension points). -/
def TDoc.updateDrive (fuel : Nat) (d : TDoc) (ph : UpdPhase)
    (isTrackedResult hasRemoteResult : Bool) : TDoc × List Out :=
  match fuel, ph with
  | _, UpdPhase.done => (d, [])
  | 0, _ => (d, [])
  | fuel + 1, ph =>
    let s := d.updateStep ph isTrackedResult hasRemoteResult
    let r := TDoc.updateDrive fuel s.1 s.2.2 isTrackedResult hasRemoteResult
    (r.1, s.2.1 ++ r.2)

/-- An uninterrupted (interference-free) run of `update(options)` with the
given query results. -/
def TDoc.updateRun (d : TDoc) (options : UpdOptions) (isActive : Bool)
    (isTrackedResult hasRemoteResult : Bool) : TDoc × List Out :=
  let s := d.updateStart options isActive
  TDoc.updateDrive 4 s.1 s.2 isTrackedResult hasRemoteResult

/-- An uninterrupted run of the async `initialize(uri)`: assigns the
resolved GitUri, checks `_disposed` (the source re-checks it after each
await; without interference the checks coincide), stores the repository
reference, records the repository-change subscription when a repository
was found, and runs `update({ initializing: true })`. -/
def TDoc.initializeRun (d : TDoc) (resolvedUri : GitUri) (repoResult : Option Repository)
    (isActive : Bool) (isTrackedResult hasRemoteResult : Bool) : TDoc × List Out :=
  let d := { d with uri := some resolvedUri }
  if d.disposed then (d, [])
  else
    let d := { d with repo := repoResult, repoSubscription := repoResult.isSome }
    d.updateRun { forceBlameChange := false, initializing := true }
      isActive isTrackedResult hasRemoteResult

/-! ## DocumentStateTracker (src/src/documentStateTracker.ts) -/

/-- Keys of the dual-index map `Map<TextDocument | string, TrackedDocument>`:
either a document (by object identity, modelled by its id) or a normalized
key string. -/
abbrev MapKey := Sum Nat String

/-- Modelled from the spec: `Strings.normalizePath` lives in the `system`
module, which is not included under src; the spec describes the key as
separator-normalized, so backslashes are replaced by forward slashes. -/
def normalizePath (s : String) : String :=
  String.mk (s.data.map (fun c => if c = Char.ofNat 92 then Char.ofNat 47 else c))

/-- `DocumentStateTracker.toStateKey`:
`Strings.normalizePath(fsPath).toLowerCase()`. -/
def toStateKey (fileName : String) : String :=
  String.mk ((normalizePath fileName).data.map Char.toLower)

/-- The document map, as an entry list in which earlier entries shadow
later ones; `storeSet` prepends, which matches `Map.set` overwrite
semantics for lookups. -/
def storeSet (m : List (MapKey × TDoc)) (k : MapKey) (v : TDoc) : List (MapKey × TDoc) :=
  (k, v) :: m

/-- `Map.get`: first entry whose key matches. -/
def storeGet (m : List (MapKey × TDoc)) (k : MapKey) : Option TDoc :=
  match m with
  | [] => none
  | kv :: rest => if kv.1 = k then some kv.2 else storeGet rest k

/-- In the source the map stores references and methods mutate the
TrackedDocument object in place, so a mutation is visible through every
map entry holding that instance; `storeWriteback` mirrors this by
replacing the value of every entry holding the same instance. -/
def storeWriteback (m : List (MapKey × TDoc)) (d : TDoc) : List (MapKey × TDoc) :=
  m.map (fun kv => if kv.2.instId = d.instId then (kv.1, d) else kv)

/-- A `DocumentDirtyStateChangeEvent` (`document` by identity, plus the
dirty flag). -/
structure DocumentDirtyStateChangeEvent where
  docId : Nat
  dirty : Bool
deriving DecidableEq, Repr

/-- State of a `DocumentStateTracker`: the dual-index map, a counter
supplying object identities for constructed TrackedDocuments, the queue of
`setImmediate` callbacks scheduled by the dirty path of
`fireDocumentDirtyStateChanged`, and the pending invocation of the 250ms
`_dirtyStateChangedDebounced` wrapper. -/
structure Tracker where
  docMap : List (MapKey × TDoc)
  nextInstId : Nat
  immediates : List (TextEditor × DocumentDirtyStateChangeEvent)
  dirtyStateChangedDebounced : Option (TextEditor × DocumentDirtyStateChangeEvent)
deriving DecidableEq, Repr

def Tracker.empty : Tracker :=
  { docMap := [], nextInstId := 0, immediates := [], dirtyStateChangedDebounced := none }

/-- `addCore(document)`: always constructs a new TrackedDocument (dirty
starts out false) and indexes it under both the document identity and the
normalized key. -/
def Tracker.addCore (tr : Tracker) (document : TextDocument) : Tracker × TDoc :=
  let key := toStateKey document.uriFsPath
  let doc := mkTDoc document key false tr.nextInstId
  let m := storeSet (storeSet tr.docMap (Sum.inl document.id) doc) (Sum.inr key) doc
  ({ tr with docMap := m, nextInstId := tr.nextInstId + 1 }, doc)

/-- `get(document)`: direct map lookup by document identity. -/
def Tracker.get (tr : Tracker) (document : TextDocument) : Option TDoc :=
  storeGet tr.docMap (Sum.inl document.id)

/-- `get(fileName)`: lookup after normalizing the string through
`toStateKey`. -/
def Tracker.getByFileName (tr : Tracker) (fileName : String) : Option TDoc :=
  storeGet tr.docMap (Sum.inr (toStateKey fileName))

/-- `fireDocumentDirtyStateChanged`: a dirty event schedules a
`setImmediate` callback; a clean event invokes the 250ms debounced
wrapper, replacing any pending invocation. -/
def Tracker.fireDocumentDirtyStateChanged (tr : Tracker) (editor : TextEditor)
    (e : DocumentDirtyStateChangeEvent) : Tracker :=
  if e.dirty then
    { tr with immediates := tr.immediates ++ [(editor, e)] }
  else
    { tr with dirtyStateChangedDebounced := some (editor, e) }

/-- Execution of one scheduled `setImmediate` callback: cancels any
pending debounced publish, then publishes unless the active editor is no
longer the one the event was generated for. -/
def Tracker.runImmediate (tr : Tracker) (task : TextEditor × DocumentDirtyStateChangeEvent)
    (activeTextEditor : Option TextEditor) : Tracker × List Out :=
  let tr := { tr with dirtyStateChangedDebounced := none }
  if activeTextEditor ≠ some task.1 then (tr, [])
  else (tr, [Out.dirtyEvent task.2.docId task.2.dirty])

/-- Execution of the debounced wrapper once its 250ms delay elapses:
publishes unless the active editor has changed. -/
def Tracker.runDebounced (tr : Tracker) (activeTextEditor : Option TextEditor) :
    Tracker × List Out :=
  match tr.dirtyStateChangedDebounced with
  | none => (tr, [])
  | some (editor, e) =>
    let tr := { tr with dirtyStateChangedDebounced := none }
    if activeTextEditor ≠ some editor then (tr, [])
    else (tr, [Out.dirtyEvent e.docId e.dirty])

/-- `onTextDocumentChanged(e)`: ignores non-file schemes; looks up or
lazily creates the TrackedDocument; resets its cached state; consumes the
one-shot trigger flag or recomputes the dirty flag (returning early when
it did not change); and forwards a dirty-state event only when the changed
document is the active one. -/
def Tracker.onTextDocumentChanged (tr : Tracker) (document : TextDocument)
    (activeTextEditor : Option TextEditor) : Tracker :=
  if document.uriScheme ≠ "file" then tr
  else
    let found := tr.get document
    let tr1 := match found with
      | some _ => tr
      | none => (tr.addCore document).1
    let doc0 := match found with
      | some doc => doc
      | none => (tr.addCore document).2
    let doc1 := doc0.reset ResetReason.document
    let step : TDoc × Bool :=
      if doc1.shouldTriggerOnNextChange then (doc1.resetTriggerOnNextChange, true)
      else if doc1.dirty = document.isDirty then (doc1, false)
      else ({ doc1 with dirty := !doc1.dirty }, true)
    let tr2 := { tr1 with docMap := storeWriteback tr1.docMap step.1 }
    if step.2 = false then tr2
    else
      match activeTextEditor with
      | none => tr2
      | some editor =>
        if editor.document.id ≠ document.id then tr2
        else tr2.fireDocumentDirtyStateChanged editor
               { docId := document.id, dirty := step.1.dirty }

/-! ## GitContextTracker (src/unnamed/part_000) -/

/-- The `ContextState` record of GitContextTracker (optional fields are
`undefined` until first derived). -/
structure ContextState where
  blameable : Option Bool
  dirty : Bool
  line : Option Int
  lineDirty : Option Bool
  revision : Option Bool
  tracked : Option Bool
deriving DecidableEq, Repr

/-- The `Context` record: active editor, its repository and the liveness
of the repository-change subscription, the derived state, and the resolved
GitUri. -/
structure Context where
  editor : Option TextEditor
  repo : Option Repository
  repoDisposable : Bool
  state : ContextState
  uri : Option GitUri
deriving DecidableEq, Repr

/-- Pre-supplied results of the async git queries `updateContext` issues;
`Except.error` models the query throwing. -/
structure GitService where
  fromUriResult : Except Unit GitUri
  getRepositoryResult : Except Unit (Option Repository)
  isTrackedResult : Except Unit Bool
  repositories : List Repository

/-- `updateBlameability(reason, blameable, force)` (its try/catch never
triggers: the body performs no git queries): defaults the value to
`state.tracked`, skips when unchanged and not forced, otherwise records
it, mirrors the active-is-blameable flag and fires the blameability
event. -/
def updateBlameability (ctx : Context) (reason : BlameabilityChangeReason)
    (blameable : Option Bool) (force : Bool) : Context × List Out :=
  let blameable := if blameable = none then ctx.state.tracked else blameable
  if !force && ctx.state.blameable = blameable then (ctx, [])
  else
    let ctx := { ctx with state := { ctx.state with blameable := blameable } }
    (ctx, [Out.setCtx CtxFlag.activeIsBlameable blameable,
           Out.blameabilityEvent (ctx.editor.map TextEditor.id) blameable
             ctx.state.dirty reason])

/-- The scan loop of `updateRemotes`: walks the known repositories,
skipping the one already associated with the context (compared by
identity), and stops at the first with a remote. -/
def scanRepositories (contextRepo : Option Repository) : List Repository → Bool
  | [] => false
  | r :: rest =>
    if contextRepo = some r then scanRepositories contextRepo rest
    else if r.hasRemotes then true
    else scanRepositories contextRepo rest

/-- `updateRemotes()`: sets active-has-remote from the context repository
alone; when that is false additionally scans all other known repositories;
mirrors the aggregate into the has-any-remote flag. -/
def updateRemotes (ctx : Context) (git : GitService) : List Out :=
  let hasRemotes := match ctx.repo with
    | some repo => repo.hasRemote
    | none => false
  let outs := [Out.setCtx CtxFlag.activeHasRemote (some hasRemotes)]
  let hasRemotes := if hasRemotes then hasRemotes
    else scanRepositories ctx.repo git.repositories
  outs ++ [Out.setCtx CtxFlag.hasRemotes (some hasRemotes)]

/-- Shared tail of `updateContext` (after the queries succeeded): records
revision/tracked/dirty changes with their context-flag writes and the
debounced line-dirty notification, then runs `updateBlameability` and
`updateRemotes`.  The final Bool is the caught-an-exception marker, always
false here. -/
def updateContextTail (git : GitService) (ctx : Context) (reason : BlameabilityChangeReason)
    (dirty revision tracked : Bool) (force : Bool) : Context × List Out × Bool :=
  let s1 : Context × List Out :=
    if ctx.state.revision ≠ some revision then
      ({ ctx with state := { ctx.state with revision := some revision } },
       [Out.setCtx CtxFlag.activeIsRevision (some revision)])
    else (ctx, [])
  let s2 : Context × List Out :=
    if s1.1.state.tracked ≠ some tracked then
      ({ s1.1 with state := { s1.1.state with tracked := some tracked } },
       [Out.setCtx CtxFlag.activeFileIsTracked (some tracked)])
    else (s1.1, [])
  let s3 : Context × List Out :=
    if s2.1.state.dirty ≠ dirty then
      ({ s2.1 with state := { s2.1.state with dirty := dirty } }, [Out.lineDirtyDebounce])
    else (s2.1, [])
  let s4 := updateBlameability s3.1 reason none force
  let s5 := updateRemotes s4.1 git
  (s4.1, s1.2 ++ s2.2 ++ s3.2 ++ s4.2 ++ s5, false)

/-- `updateContext(reason, editor, force)`.  The whole body runs inside
try/catch; each `Except.error` result of a query jumps to the catch, which
only logs — modelled by returning the context as mutated so far, no
outputs, and `true` as the caught marker. -/
def updateContext (git : GitService) (ctx : Context) (reason : BlameabilityChangeReason)
    (editor : Option TextEditor) (force : Bool) : Context × List Out × Bool :=
  if force || ctx.editor ≠ editor then
    let ctx := { ctx with editor := editor, repo := none, repoDisposable := false }
    match editor with
    | some ed =>
      match git.fromUriResult with
      | Except.error _ => (ctx, [], true)
      | Except.ok u =>
        let ctx := { ctx with uri := some u }
        match git.getRepositoryResult with
        | Except.error _ => (ctx, [], true)
        | Except.ok repoResult =>
          let ctx := match repoResult with
            | some r => { ctx with repo := some r, repoDisposable := true }
            | none => ctx
          let dirty := ed.document.isDirty
          let revision := u.sha.isSome
          match git.isTrackedResult with
          | Except.error _ => (ctx, [], true)
          | Except.ok tracked => updateContextTail git ctx reason dirty revision tracked force
    | none =>
      let ctx := { ctx with uri := none,
                            state := { ctx.state with blameable := some false } }
      updateContextTail git ctx reason false false false force
  else
    match ctx.uri with
    | some u =>
      let revision := u.sha.isSome
      match git.isTrackedResult with
      | Except.error _ => (ctx, [], true)
      | Except.ok tracked => updateContextTail git ctx reason false revision tracked force
    | none => updateContextTail git ctx reason false false false force

/-! ## Store lemmas -/

theorem storeGet_storeSet_self (m : List (MapKey × TDoc)) (k : MapKey) (v : TDoc) :
    storeGet (storeSet m k v) k = some v := by
  simp [storeGet, storeSet]

theorem storeGet_storeSet_ne (m : List (MapKey × TDoc)) (k k' : MapKey) (v : TDoc)
    (h : k ≠ k') : storeGet (storeSet m k v) k' = storeGet m k' := by
  simp [storeGet, storeSet, h]

/-! ## Claims -/

/-- C3: in every state of a TrackedDocument the derived flag `isBlameable`
equals `isTracked AND NOT blameFailed`; the getter is computed from those
two fields alone, so no operation can set it independently and there is no
intermediate state in which the equation fails. -/
theorem c3_blameable_is_derived (d : TDoc) :
    d.isBlameable = (d.isTracked && !d.blameFailed) := by
  cases h : d.blameFailed <;> simp [TDoc.isBlameable, h]

/-- C10: for a document-changed event whose document URI scheme is not
`file`, `onTextDocumentChanged` performs no action at all: the tracker
state (document map, instance counter, scheduled publishes) is returned
unchanged, so no TrackedDocument is created or looked up, no dirty flag or
cached state changes, and no dirty-state event is scheduled. -/
theorem c10_nonfile_scheme_noop (tr : Tracker) (document : TextDocument)
    (activeTextEditor : Option TextEditor) (h : document.uriScheme ≠ "file") :
    tr.onTextDocumentChanged document activeTextEditor = tr := by
  simp [Tracker.onTextDocumentChanged, h]

/-- Witness for C10 at a concrete non-file document. -/
theorem c10_witness :
    Tracker.empty.onTextDocumentChanged
      { id := 0, uriScheme := "untitled", uriFsPath := "x", isDirty := true } none
      = Tracker.empty :=
  c10_nonfile_scheme_noop Tracker.empty
    { id := 0, uriScheme := "untitled", uriFsPath := "x", isDirty := true } none
    (by decide)

/-- C2 counterexample: `add` is not idempotent and the single-instance
invariant fails.  Adding the same document twice constructs a second,
distinct TrackedDocument instance instead of returning the existing one;
and after adding a second document object whose path normalizes to the
same key, lookup by the first document identity and lookup by the
normalized key return different instances, so the store holds two
instances for one normalized key. -/
theorem c2_counterexample :
    let docA : TextDocument := { id := 0, uriScheme := "file", uriFsPath := "A.ts", isDirty := false }
    let docB : TextDocument := { id := 1, uriScheme := "file", uriFsPath := "a.ts", isDirty := false }
    let r1 := Tracker.empty.addCore docA
    let r2 := r1.1.addCore docA
    let r3 := r2.1.addCore docB
    r2.2.instId ≠ r1.2.instId
    ∧ (r3.1.get docA).map TDoc.instId = some 1
    ∧ (r3.1.getByFileName "A.ts").map TDoc.instId = some 2
    ∧ (r3.1.get docA) ≠ (r3.1.getByFileName "A.ts") := by
  decide

/-- C2 (amended): `addCore` always constructs a fresh TrackedDocument
instance (it never returns an already-present one) and re-points both the
identity entry and the normalized-key entry at it, so immediately after an
add the two lookups agree on the new instance; but a prior instance under
the same normalized key is only shadowed on the key index, so the store
can end up holding two instances for one normalized key (see the
counterexample). -/
theorem c2_addCore_always_constructs_fresh (tr : Tracker) (document : TextDocument) :
    let r := tr.addCore document
    r.2.instId = tr.nextInstId
    ∧ r.1.nextInstId = tr.nextInstId + 1
    ∧ r.1.get document = some r.2
    ∧ r.1.getByFileName document.uriFsPath = some r.2 := by
  refine ⟨rfl, rfl, ?_, ?_⟩
  · show storeGet (storeSet (storeSet tr.docMap (Sum.inl document.id) _)
        (Sum.inr (toStateKey document.uriFsPath)) _) (Sum.inl document.id) = _
    rw [storeGet_storeSet_ne _ _ _ _ (by simp), storeGet_storeSet_self]
    rfl
  · show storeGet (storeSet (storeSet tr.docMap (Sum.inl document.id) _)
        (Sum.inr (toStateKey document.uriFsPath)) _) (Sum.inr (toStateKey document.uriFsPath)) = _
    rw [storeGet_storeSet_self]
    rfl

/-- C1 counterexample: no generation check exists, so a reset between
issuing and completing the tracked query does not prevent the stale result
from being applied.  A ready document (tracked=false, cached state
present) issues `update`; `reset('document')` runs while the query is in
flight; the continuation then resumes with result true: the document ends
with `isTracked = true` (the query result, applied), differing from the
state the reset established, and even publishes a blame-state-changed
event for the superseded derivation. -/
theorem c1_counterexample :
    let d0 : TDoc := { mkTDoc { id := 0, uriScheme := "file", uriFsPath := "a.ts", isDirty := false }
                         "a.ts" false 0 with
                       uri := some { sha := none }, state := some () }
    let issued := d0.updateStart {} true
    let dReset := issued.1.reset ResetReason.document
    let resumed := dReset.updateResumeTracked true (some false) {} true
    issued.2 = UpdPhase.awaitTracked true (some false) {}
    ∧ dReset.isTracked = false
    ∧ resumed.1.isTracked = true
    ∧ resumed.1 ≠ dReset
    ∧ Out.blameEvent 0 true ∈ resumed.2.1 := by
  decide

/-- C1 (amended): the code has no generation counter; `reset` does not
invalidate in-flight continuations.  A continuation of `update` that
resumes after a reset still applies its query result unconditionally;
results are discarded only by the disposed/undefined-uri guard at the
entry of `update` (which zeroes the tracked and remote flags and issues no
query). -/
theorem c1_reset_does_not_discard_inflight_update (d : TDoc) (r : ResetReason)
    (isActive : Bool) (wasBlameable : Option Bool) (options : UpdOptions)
    (isTrackedResult : Bool) :
    ((d.reset r).updateResumeTracked isActive wasBlameable options isTrackedResult).1.isTracked
        = isTrackedResult
    ∧ (d.disposed = true →
        d.updateStart options isActive
          = ({ d with isTracked := false, hasRemotes := false }, UpdPhase.done)) := by
  constructor
  · simp only [TDoc.updateResumeTracked]
    split <;> rfl
  · intro h
    simp [TDoc.updateStart, h]

/-- Witness for C1 at a concrete disposed document. -/
theorem c1_witness :
    ((({ mkTDoc { id := 0, uriScheme := "file", uriFsPath := "a.ts", isDirty := false }
          "a.ts" false 0 with disposed := true } : TDoc).reset ResetReason.document).updateResumeTracked
        true none {} true).1.isTracked = true
    ∧ ({ mkTDoc { id := 0, uriScheme := "file", uriFsPath := "a.ts", isDirty := false }
          "a.ts" false 0 with disposed := true } : TDoc).updateStart {} true
        = ({ mkTDoc { id := 0, uriScheme := "file", uriFsPath := "a.ts", isDirty := false }
              "a.ts" false 0 with disposed := true, isTracked := false, hasRemotes := false },
           UpdPhase.done) :=
  ⟨(c1_reset_does_not_discard_inflight_update _ ResetReason.document true none {} true).1,
   (c1_reset_does_not_discard_inflight_update _ ResetReason.document true none {} true).2 rfl⟩

/-- C6 counterexample: an update continuation in flight at disposal time
is not dropped.  A document issues `update` (passing the entry guard),
`dispose()` runs while the tracked query is in flight, and the
continuation then resumes: it still writes `isTracked = true` into the
disposed document and still fires a blame-state-changed event. -/
theorem c6_counterexample :
    let d0 : TDoc := { mkTDoc { id := 7, uriScheme := "file", uriFsPath := "b.ts", isDirty := false }
                         "b.ts" false 0 with
                       uri := some { sha := none }, state := some () }
    let issued := d0.updateStart {} true
    let dDisposed := issued.1.dispose
    let resumed := dDisposed.updateResumeTracked true (some false) {} true
    dDisposed.disposed = true
    ∧ resumed.1.isTracked = true
    ∧ resumed.1 ≠ dDisposed
    ∧ Out.blameEvent 7 true ∈ resumed.2.1 := by
  decide

/-- C6 (amended): `dispose` is idempotent — a second dispose changes
nothing and (like the first) fires no notification; an `update` entered
after disposal is discarded at its entry guard without issuing queries or
publishing; but a continuation already past that guard at disposal time is
not dropped — it still applies its query result (and may publish, see the
counterexample). -/
theorem c6_dispose_idempotent_but_inflight_not_dropped (d : TDoc) (isActive : Bool)
    (wasBlameable : Option Bool) (options : UpdOptions) (isTrackedResult : Bool) :
    d.dispose.dispose = d.dispose
    ∧ d.dispose.disposed = true
    ∧ (d.disposed = true →
        d.updateStart options isActive
          = ({ d with isTracked := false, hasRemotes := false }, UpdPhase.done))
    ∧ (d.dispose.updateResumeTracked isActive wasBlameable options isTrackedResult).1.isTracked
        = isTrackedResult := by
  refine ⟨?_, ?_, ?_, ?_⟩
  · cases d with
    | mk document key dirty instId state disposed blameFailed isTracked hasRemotes
        shouldTrigger uri repo repoSub =>
      cases state <;> simp [TDoc.dispose, TDoc.reset]
  · cases d with
    | mk document key dirty instId state disposed blameFailed isTracked hasRemotes
        shouldTrigger uri repo repoSub =>
      cases state <;> simp [TDoc.dispose, TDoc.reset]
  · intro h
    simp [TDoc.updateStart, h]
  · simp only [TDoc.updateResumeTracked]
    split <;> rfl

/-- Witness for C6 at a concrete disposed document. -/
theorem c6_witness :
    let dd : TDoc := { mkTDoc { id := 7, uriScheme := "file", uriFsPath := "b.ts", isDirty := false }
                         "b.ts" false 0 with disposed := true }
    dd.dispose.dispose = dd.dispose
    ∧ dd.dispose.disposed = true
    ∧ dd.updateStart {} true
        = ({ dd with isTracked := false, hasRemotes := false }, UpdPhase.done)
    ∧ (dd.dispose.updateResumeTracked true none {} false).1.isTracked = false := by
  refine ⟨(c6_dispose_idempotent_but_inflight_not_dropped _ true none {} false).1,
    (c6_dispose_idempotent_but_inflight_not_dropped _ true none {} false).2.1,
    (c6_dispose_idempotent_but_inflight_not_dropped _ true none {} false).2.2.1 rfl,
    (c6_dispose_idempotent_but_inflight_not_dropped _ true none {} false).2.2.2⟩

/-- C5 counterexample: opening an untracked active document and letting
the initial tracked query resolve to false produces zero blame-state-changed
notifications, not exactly one: the initializing update suppresses the
event (it does set the active-is-blameable context flag to false). -/
theorem c5_counterexample :
    let d := mkTDoc { id := 3, uriScheme := "file", uriFsPath := "c.ts", isDirty := false }
               "c.ts" false 0
    let r := d.initializeRun { sha := none } none true false false
    r.2.countP Out.isBlameEvent = 0
    ∧ Out.setCtx CtxFlag.activeIsBlameable (some false) ∈ r.2
    ∧ r.1.isTracked = false := by
  decide

/-- C5 (amended): for any freshly constructed TrackedDocument that is
active, an initial resolution in which the tracked query returns false
fires no blame-state-changed notification at all (the
`{ initializing: true }` update suppresses the event), while the
active-is-blameable host context flag is set to false and the document
ends untracked and unblameable. -/
theorem c5_initializing_update_suppresses_blame_event (document : TextDocument)
    (key : String) (instId : Nat) (resolvedUri : GitUri) (repoResult : Option Repository)
    (hasRemoteResult : Bool) :
    let r := (mkTDoc document key false instId).initializeRun resolvedUri repoResult
               true false hasRemoteResult
    r.2.countP Out.isBlameEvent = 0
    ∧ Out.setCtx CtxFlag.activeIsBlameable (some false) ∈ r.2
    ∧ r.1.isTracked = false
    ∧ r.1.isBlameable = false := by
  simp [TDoc.initializeRun, mkTDoc, TDoc.updateRun, TDoc.updateStart, TDoc.updateDrive,
        TDoc.updateStep, TDoc.updateResumeTracked, TDoc.isBlameable, List.countP_cons,
        Out.isBlameEvent]

/-- C4: the dirty-state publish policy.  A dirty=false→true transition is
scheduled only on the next-tick queue (the pending debounced publish is
untouched at scheduling time and the 250ms slot gains nothing); running
that next-tick callback first cancels any pending debounced publish and
then publishes only if the active editor is still the one the event was
generated for.  A dirty=true→false transition schedules nothing on the
next-tick queue and goes only through the 250ms debouncer, which on expiry
also publishes only if the active editor is unchanged. -/
theorem c4_dirty_publish_policy (tr : Tracker) (editor : TextEditor) (docId : Nat)
    (activeTextEditor : Option TextEditor) :
    ((tr.fireDocumentDirtyStateChanged editor { docId := docId, dirty := true }).immediates
        = tr.immediates ++ [(editor, { docId := docId, dirty := true })]
     ∧ (tr.fireDocumentDirtyStateChanged editor { docId := docId, dirty := true }).dirtyStateChangedDebounced
        = tr.dirtyStateChangedDebounced
     ∧ ((tr.fireDocumentDirtyStateChanged editor { docId := docId, dirty := true }).runImmediate
          (editor, { docId := docId, dirty := true }) activeTextEditor).1.dirtyStateChangedDebounced
        = none
     ∧ ((tr.fireDocumentDirtyStateChanged editor { docId := docId, dirty := true }).runImmediate
          (editor, { docId := docId, dirty := true }) activeTextEditor).2
        = (if activeTextEditor = some editor then [Out.dirtyEvent docId true] else []))
    ∧ ((tr.fireDocumentDirtyStateChanged editor { docId := docId, dirty := false }).immediates
        = tr.immediates
     ∧ (tr.fireDocumentDirtyStateChanged editor { docId := docId, dirty := false }).dirtyStateChangedDebounced
        = some (editor, { docId := docId, dirty := false })
     ∧ ((tr.fireDocumentDirtyStateChanged editor { docId := docId, dirty := false }).runDebounced
          activeTextEditor).2
        = (if activeTextEditor = some editor then [Out.dirtyEvent docId false] else [])) := by
  by_cases h : activeTextEditor = some editor <;>
    simp [Tracker.fireDocumentDirtyStateChanged, Tracker.runImmediate, Tracker.runDebounced, h]

/-- C7: `setBlameFailure` sets `blameFailed` (making `isBlameable` false)
while leaving the tracked flag unchanged; it triggers the forced update
exactly when the document was blameable and is active; the forced update —
even when the re-queried tracked value is unchanged — fires a
blame-state-changed publish; and the next `reset` clears `blameFailed`
again. -/
theorem c7_setBlameFailure_forces_publish (d : TDoc) (isActive hasRemoteResult : Bool)
    (hdisp : d.disposed = false) (huri : d.uri ≠ none) :
    let r := d.setBlameFailure isActive
    r.1.blameFailed = true
    ∧ r.1.isTracked = d.isTracked
    ∧ r.1.isBlameable = false
    ∧ r.2 = (d.isBlameable && isActive)
    ∧ (∀ reason, (r.1.reset reason).blameFailed = false)
    ∧ (r.2 = true →
        let u := r.1.updateRun { forceBlameChange := true } isActive d.isTracked hasRemoteResult
        u.1.isTracked = d.isTracked ∧ Out.blameEvent d.document.id false ∈ u.2) := by
  refine ⟨rfl, rfl, by simp [TDoc.setBlameFailure, TDoc.isBlameable], rfl, ?_, ?_⟩
  · intro reason
    simp only [TDoc.setBlameFailure, TDoc.reset]
    split <;> rfl
  · intro h
    have hia : isActive = true := by
      cases hb : isActive
      · rw [hb] at h; simp [TDoc.setBlameFailure] at h
      · rfl
    subst hia
    cases ht : d.isTracked <;> cases hrepo : d.repo <;>
      simp [TDoc.setBlameFailure, TDoc.updateRun, TDoc.updateStart, TDoc.updateDrive,
            TDoc.updateStep, TDoc.updateResumeTracked, TDoc.updateResumeRepo,
            TDoc.updateResumeHasRemote, TDoc.isBlameable, hdisp, huri, ht, hrepo]

/-- Witness for C7 at a concrete blameable, active, tracked document. -/
theorem c7_witness :
    let dd : TDoc := { mkTDoc { id := 5, uriScheme := "file", uriFsPath := "d.ts", isDirty := false }
                         "d.ts" false 0 with
                       uri := some { sha := none }, isTracked := true }
    let r := dd.setBlameFailure true
    r.1.blameFailed = true
    ∧ r.1.isTracked = dd.isTracked
    ∧ r.1.isBlameable = false
    ∧ r.2 = (dd.isBlameable && true)
    ∧ (∀ reason, (r.1.reset reason).blameFailed = false)
    ∧ (r.2 = true →
        let u := r.1.updateRun { forceBlameChange := true } true dd.isTracked false
        u.1.isTracked = dd.isTracked ∧ Out.blameEvent 5 false ∈ u.2) :=
  c7_setBlameFailure_forces_publish _ true false rfl (by decide)

/-- The scan loop of `updateRemotes` finds a remote exactly when some
known repository other than the context repository has one. -/
theorem scanRepositories_eq_true_iff (contextRepo : Option Repository)
    (l : List Repository) :
    scanRepositories contextRepo l = true
      ↔ ∃ r ∈ l, contextRepo ≠ some r ∧ r.hasRemotes = true := by
  induction l with
  | nil => simp [scanRepositories]
  | cons r rest ih =>
    simp only [scanRepositories]
    split_ifs with h1 h2
    · rw [ih]
      constructor
      · rintro ⟨x, hx, hne, hr⟩
        exact ⟨x, List.mem_cons_of_mem _ hx, hne, hr⟩
      · rintro ⟨x, hx, hne, hr⟩
        rcases List.mem_cons.mp hx with hxr | hxrest
        · rw [hxr] at hne
          exact absurd h1 hne
        · exact ⟨x, hxrest, hne, hr⟩
    · exact iff_of_true rfl ⟨r, List.mem_cons_self r rest, h1, h2⟩
    · rw [ih]
      constructor
      · rintro ⟨x, hx, hne, hr⟩
        exact ⟨x, List.mem_cons_of_mem _ hx, hne, hr⟩
      · rintro ⟨x, hx, hne, hr⟩
        rcases List.mem_cons.mp hx with hxr | hxrest
        · rw [hxr] at hr
          exact absurd hr h2
        · exact ⟨x, hxrest, hne, hr⟩

/-- C9: `updateRemotes` sets the active-has-remote flag to true exactly
when the repository of the active context has a remote; and whenever that
flag is false, the has-any-remote flag is set to true exactly when some
other known repository has a remote — so has-any-remote can be true while
active-has-remote stays false. -/
theorem c9_remote_aggregation (ctx : Context) (git : GitService) :
    (Out.setCtx CtxFlag.activeHasRemote (some true) ∈ updateRemotes ctx git
       ↔ ∃ r, ctx.repo = some r ∧ r.hasRemote = true)
    ∧ (Out.setCtx CtxFlag.activeHasRemote (some false) ∈ updateRemotes ctx git →
        (Out.setCtx CtxFlag.hasRemotes (some true) ∈ updateRemotes ctx git
          ↔ ∃ r ∈ git.repositories, ctx.repo ≠ some r ∧ r.hasRemotes = true)) := by
  cases hrepo : ctx.repo with
  | none =>
    simp [updateRemotes, hrepo, scanRepositories_eq_true_iff]
  | some rep =>
    cases hr : rep.hasRemote <;>
      simp [updateRemotes, hrepo, hr, scanRepositories_eq_true_iff]

/-- Witness for C9: a context repository without a remote and one other
repository with a remote; has-any-remote becomes true while
active-has-remote stays false. -/
theorem c9_witness :
    let ctx0 : Context := { editor := none, repo := some { id := 0, hasRemote := false, hasRemotes := false },
                            repoDisposable := false,
                            state := { blameable := none, dirty := false, line := none,
                                       lineDirty := none, revision := none, tracked := none },
                            uri := none }
    let git0 : GitService := { fromUriResult := Except.ok { sha := none },
                               getRepositoryResult := Except.ok none,
                               isTrackedResult := Except.ok true,
                               repositories := [{ id := 1, hasRemote := true, hasRemotes := true }] }
    Out.setCtx CtxFlag.hasRemotes (some true) ∈ updateRemotes ctx0 git0
    ∧ Out.setCtx CtxFlag.activeHasRemote (some false) ∈ updateRemotes ctx0 git0 := by
  refine ⟨((c9_remote_aggregation _ _).2 (by decide)).mpr (by decide), by decide⟩

/-- The shared tail of `updateContext` runs only after every query
succeeded, so it never reports a caught exception. -/
theorem updateContextTail_not_caught (git : GitService) (ctx : Context)
    (reason : BlameabilityChangeReason) (dirty revision tracked force : Bool) :
    (updateContextTail git ctx reason dirty revision tracked force).2.2 = false :=
  rfl

/-- C8 (amended): a repository-query failure inside `updateContext` is
caught by its surrounding try/catch (the caught marker is the only way the
run ends early, so no exception escapes the event-handling path), and when
a failure is caught nothing is published and the derived state — in
particular the tracked flag — keeps its previous values rather than being
forced to `tracked=false, hasRemote=false`. -/
theorem c8_query_failure_caught_flags_unchanged (git : GitService) (ctx : Context)
    (reason : BlameabilityChangeReason) (editor : Option TextEditor) (force : Bool)
    (h : (updateContext git ctx reason editor force).2.2 = true) :
    (updateContext git ctx reason editor force).1.state = ctx.state
    ∧ (updateContext git ctx reason editor force).2.1 = [] := by
  revert h
  unfold updateContext
  split
  · cases editor with
    | none =>
      intro h
      rw [updateContextTail_not_caught] at h
      exact absurd h (by simp)
    | some ed =>
      cases git.fromUriResult with
      | error e => intro _; exact ⟨rfl, rfl⟩
      | ok u =>
        cases git.getRepositoryResult with
        | error e => intro _; exact ⟨rfl, rfl⟩
        | ok repoResult =>
          cases git.isTrackedResult with
          | error e => cases repoResult <;> exact fun _ => ⟨rfl, rfl⟩
          | ok tracked =>
            cases repoResult <;>
              · intro h
                rw [updateContextTail_not_caught] at h
                exact absurd h (by simp)
  · cases hu : ctx.uri with
    | none =>
      intro h
      rw [updateContextTail_not_caught] at h
      exact absurd h (by simp)
    | some u =>
      cases git.isTrackedResult with
      | error e => intro _; exact ⟨rfl, rfl⟩
      | ok tracked =>
        intro h
        rw [updateContextTail_not_caught] at h
        exact absurd h (by simp)

/-- C8 counterexample: with the tracked query throwing, `updateContext`
catches the failure (nothing escapes, nothing is published) but the
context keeps its previous `tracked = true` value — the failure does not
result in `tracked=false` as the claim states. -/
theorem c8_counterexample :
    let doc0 : TextDocument := { id := 0, uriScheme := "file", uriFsPath := "a.ts", isDirty := false }
    let ed0 : TextEditor := { id := 0, document := doc0 }
    let ctx0 : Context := { editor := none, repo := none, repoDisposable := false,
                            state := { blameable := some true, dirty := false, line := none,
                                       lineDirty := none, revision := some false,
                                       tracked := some true },
                            uri := none }
    let git0 : GitService := { fromUriResult := Except.ok { sha := none },
                               getRepositoryResult := Except.ok none,
                               isTrackedResult := Except.error (),
                               repositories := [] }
    let r := updateContext git0 ctx0 BlameabilityChangeReason.editorChanged (some ed0) true
    r.2.2 = true
    ∧ r.1.state.tracked = some true
    ∧ r.1.state.tracked ≠ some false
    ∧ r.2.1 = [] := by
  decide

/-- Witness for C8 at the concrete failing run. -/
theorem c8_witness :
    let doc0 : TextDocument := { id := 0, uriScheme := "file", uriFsPath := "a.ts", isDirty := false }
    let ed0 : TextEditor := { id := 0, document := doc0 }
    let ctx0 : Context := { editor := none, repo := none, repoDisposable := false,
                            state := { blameable := some true, dirty := false, line := none,
                                       lineDirty := none, revision := some false,
                                       tracked := some true },
                            uri := none }
    let git0 : GitService := { fromUriResult := Except.ok { sha := none },
                               getRepositoryResult := Except.ok none,
                               isTrackedResult := Except.error (),
                               repositories := [] }
    (updateContext git0 ctx0 BlameabilityChangeReason.editorChanged (some ed0) true).1.state
        = ctx0.state
    ∧ (updateContext git0 ctx0 BlameabilityChangeReason.editorChanged (some ed0) true).2.1 = [] :=
  c8_query_failure_caught_flags_unchanged _ _ BlameabilityChangeReason.editorChanged _ true
    (by decide)

end GitLens
